/-
Verification of the image submission pipeline of app.py (Change Clothes AI
Streamlit front-end): image resizing, color-mode normalization, garment URL
validation, multipart form construction, and the mapping of HTTP outcomes
to structured submission results.

The embedding is shallow: each Python function of app.py is translated into
an executable Lean definition over explicit data.  CPython floats are IEEE-754
binary64; `resize_image` computes `ratio = 1024 / max(w, h)` and
`int(dim * ratio)` in that arithmetic, so the resize model implements
round-to-nearest-even at 53 significant bits exactly, in ℕ arithmetic
(all quantities involved are positive and in the normal range, so neither
overflow nor subnormals arise for the sizes covered by the theorems).
-/
import Mathlib

set_option maxRecDepth 8000

namespace MAFLPILOT

/-! ## IEEE-754 binary64 model (normal range, positive values)

A positive real in the normal range is rounded to the nearest `m / 2^k`
with `2^52 ≤ m ≤ 2^53`, ties to even.  `findK a b` finds the scale `k`
for the quotient `a / b` (smallest `k` with `2^52 * b ≤ a * 2^k`, i.e.
`a/b ≥ 2^52 / 2^k`), and `roundAt a b k` rounds `a * 2^k / b` to the
nearest integer, ties to even: the mantissa of the correctly rounded
binary64 quotient `a / b`. -/

/-- Fuel-driven search for the smallest `k ≥ k₀` with `2^52 * b ≤ a * 2^k`. -/
def goFind (a b : ℕ) : ℕ → ℕ → ℕ
  | 0, k => k
  | fuel + 1, k => if 2 ^ 52 * b ≤ a * 2 ^ k then k else goFind a b fuel (k + 1)

/-- Binary scale of the binary64 representation of `a / b`. -/
def findK (a b : ℕ) : ℕ := goFind a b 300 0

/-- `a * 2^k / b` rounded to the nearest integer, ties to even. -/
def roundAt (a b k : ℕ) : ℕ :=
  let n := a * 2 ^ k
  if b < 2 * (n % b) then n / b + 1
  else if 2 * (n % b) < b then n / b
  else if n / b % 2 = 0 then n / b else n / b + 1

/-! ## resize_image (app.py lines 25–33)

    width, height = image.size
    if max(width, height) > max_size:
        ratio = max_size / max(width, height)
        new_width = int(width * ratio)
        new_height = int(height * ratio)
        image = image.resize((new_width, new_height), ...)
    return image

`max_size / max(width, height)` is a correctly rounded binary64 quotient
(CPython int true division), `width * ratio` multiplies the exactly
converted integer `width` (exact for `width < 2^53`) by the dyadic
`ratio = mf / 2^k` — a single correctly rounded operation on the exact
product `(width * mf) / 2^k` — and `int(_)` truncates the positive result,
i.e. floors it. -/

/-- One scaled dimension: the binary64 value of
`int(d * (1024 / m))` as computed by CPython. -/
def resize_dim (d m : ℕ) : ℕ :=
  let k := findK 1024 m
  let mf := roundAt 1024 m k
  let k2 := findK (d * mf) (2 ^ k)
  let mf2 := roundAt (d * mf) (2 ^ k) k2
  mf2 / 2 ^ k2

/-- `resize_image` on the pixel dimensions, `max_size = 1024`. -/
def resize_image (w h : ℕ) : ℕ × ℕ :=
  if 1024 < max w h then (resize_dim w (max w h), resize_dim h (max w h))
  else (w, h)

/-! ## PIL images and color-mode normalization

An in-memory image is its pixel dimensions plus its PIL color mode.
The PIL modes relevant here: `RGB` (three channels), `RGBA` (alpha),
`L` (grayscale), `LA` (grayscale + alpha), `P` (palette), `PA`
(palette + alpha), `CMYK`.  `LA`, `RGBA` and `PA` carry an alpha channel;
`P` and `PA` are palette-based (PIL documentation). -/

inductive PILMode
  | RGB | RGBA | L | LA | P | PA | CMYK
deriving DecidableEq, Repr

/-- Whether a PIL mode carries an alpha channel or a palette
(the property named by the specification). -/
def PILMode.hasAlphaOrPalette : PILMode → Bool
  | .RGBA => true
  | .LA => true
  | .P => true
  | .PA => true
  | _ => false

structure PILImage where
  width : ℕ
  height : ℕ
  mode : PILMode
deriving DecidableEq, Repr

/-- `image.convert('RGB')`: same pixel dimensions, mode RGB. -/
def convertRGB (img : PILImage) : PILImage :=
  { img with mode := .RGB }

/-- app.py lines 225–226 / 261–262 / 288–289 / 367–368:

    if image.mode in ('RGBA', 'P'):
        image = image.convert('RGB') -/
def normalizeMode (img : PILImage) : PILImage :=
  if img.mode = .RGBA ∨ img.mode = .P then convertRGB img else img

/-- `resize_image` applied to a PIL image (mode is preserved by
`Image.resize`). -/
def resizePIL (img : PILImage) : PILImage :=
  { width := (resize_image img.width img.height).1
    height := (resize_image img.width img.height).2
    mode := img.mode }

/-- The preprocessing applied to each uploaded image before encoding
(app.py lines 224–228, 260–265, 287–291, 366–369): mode normalization,
then resize. -/
def prepareImage (img : PILImage) : PILImage :=
  resizePIL (normalizeMode img)

/-! ## Python strings: strip and truthiness -/

/-- `str.strip()` with no argument: remove leading and trailing
whitespace.  (Modeled with Lean's whitespace predicate, which agrees
with Python on ASCII whitespace.) -/
def pyStrip (s : String) : String :=
  ⟨((s.data.dropWhile Char.isWhitespace).reverse.dropWhile Char.isWhitespace).reverse⟩

/-- Python `s.startswith(pre)`. -/
def pyStartsWith (s pre : String) : Bool := pre.data.isPrefixOf s.data

/-! ## Multipart form construction (app.py lines 47–54)

    form_data = {
        'modelImg': model_img_base64,
        'garmentImg': garment_img,
        'category': category
    }
    if garment_desc and garment_desc.strip():
        form_data['garmentDesc'] = garment_desc.strip()

For a string `s`, `s and s.strip()` is truthy iff `s.strip()` is
non-empty (a string is truthy iff non-empty, and `s.strip() ≠ ""`
already forces `s ≠ ""`). -/
def build_form_data (model_img_base64 garment_img category garment_desc : String) :
    List (String × String) :=
  let base := [("modelImg", model_img_base64), ("garmentImg", garment_img),
    ("category", category)]
  if garment_desc ≠ "" ∧ pyStrip garment_desc ≠ "" then
    base ++ [("garmentDesc", pyStrip garment_desc)]
  else base

/-! ## JSON values and Python dict access -/

inductive Json
  | null
  | bool (b : Bool)
  | num (n : ℤ)
  | str (s : String)
  | arr (elems : List Json)
  | obj (fields : List (String × Json))

/-- The Python type name of the value a JSON node parses to
(`json()` maps null → NoneType, objects → dict, arrays → list, …),
as it appears in an `AttributeError` message. -/
def Json.pyTypeName : Json → String
  | .null => "NoneType"
  | .bool _ => "bool"
  | .num _ => "int"
  | .str _ => "str"
  | .arr _ => "list"
  | .obj _ => "dict"

/-- Python exceptions relevant to the two fallible call sites.
`Exception`-derived ones are all caught by `except Exception`. -/
inductive PyExn
  /-- `asyncio.TimeoutError`, raised when the 180 s total timeout elapses. -/
  | timeoutError
  /-- Any other `Exception`, carrying `str(e)`. -/
  | exn (msg : String)
deriving DecidableEq, Repr

/-- Python `d.get(key, default)`.  On a JSON object it looks the key up
(later duplicates overwrite earlier ones in a Python dict, hence the
reversed lookup); on any non-dict value, `.get` raises
`AttributeError: '<type>' object has no attribute 'get'`. -/
def pyGetD (j : Json) (key : String) (default : Json) : Except PyExn Json :=
  match j with
  | .obj fields => .ok (((fields.reverse).lookup key).getD default)
  | v => .error (.exn ("'" ++ v.pyTypeName ++ "' object has no attribute 'get'"))

/-- Python `d.get(key)` (default `None`): `none` when the key is absent
or its value is JSON null (both surface as Python `None`). -/
def pyGet (j : Json) (key : String) : Except PyExn (Option Json) :=
  match j with
  | .obj fields => .ok (match (fields.reverse).lookup key with
    | none => none
    | some .null => none
    | some v => some v)
  | v => .error (.exn ("'" ++ v.pyTypeName ++ "' object has no attribute 'get'"))

/-- The specification's reading of a nested response field: the value of
`key` inside the body's `data` object, absent when the field is missing
(or JSON null, which Python's `.get` cannot distinguish from absence). -/
def jfield (fields : List (String × Json)) (key : String) : Option Json :=
  match (fields.reverse).lookup key with
  | none => none
  | some .null => none
  | some v => some v

/-! ## The async API call (app.py lines 43–102) -/

/-- The result dictionary returned by `call_change_clothes_api_async`:
`{'resultImgUrl': …, 'maskImgUrl': …, 'error': …, 'success': …}`. -/
structure SubmissionResult where
  resultImgUrl : Option Json
  maskImgUrl : Option Json
  error : Option String
  success : Bool

/-- The environment's answer to the single `session.post`: either a
response (status, raw text body, and what `response.json()` yields on
that body — `.error msg` when the body fails to parse as JSON), or the
total timeout elapsing, or any other transport failure (DNS, connection
refused, TLS, …) raising an `Exception` whose `str` is `msg`. -/
inductive HttpOutcome
  | response (status : ℕ) (text : String) (json : Except String Json)
  | timeout
  | transportFailure (msg : String)

/-- The body of the `try:` block at app.py lines 58–87, as a fallible
computation: the branch on `response.status`, the JSON decode, and the
two nested `.get` accesses may raise. -/
def tryBody (outcome : HttpOutcome) : Except PyExn SubmissionResult :=
  match outcome with
  | .timeout => .error .timeoutError
  | .transportFailure msg => .error (.exn msg)
  | .response status text json =>
    if status = 200 then
      match json with
      | .error msg => .error (.exn msg)
      | .ok body => do
        let data ← pyGetD body "data" (.obj [])
        let resultUrl ← pyGet data "resultImgUrl"
        let maskUrl ← pyGet data "maskImgUrl"
        .ok ⟨resultUrl, maskUrl, none, true⟩
    else
      .ok ⟨none, none,
        some ("API Error " ++ toString status ++ ": " ++ text), false⟩

/-- `call_change_clothes_api_async` in full, `try` body plus the two
`except` clauses, as a fallible Python computation: an uncaught
exception would surface as `.error`.  `except asyncio.TimeoutError`
comes first; `except Exception as e` catches every other exception and
renders `f'Connection error: {str(e)}'`. -/
def call_change_clothes_api_async (outcome : HttpOutcome) :
    Except PyExn SubmissionResult :=
  match tryBody outcome with
  | .ok r => .ok r
  | .error .timeoutError =>
    .ok ⟨none, none, some "Request timed out. The AI is busy, please try again.", false⟩
  | .error (.exn msg) =>
    .ok ⟨none, none, some ("Connection error: " ++ msg), false⟩

/-! ## validate_image_url (app.py lines 116–134) -/

/-- The environment's answer to `requests.get(url, timeout=10, …)`
followed by `raise_for_status()`: a timeout, a `RequestException`
(any non-2xx status — raised by `raise_for_status` — or network
failure) carrying `str(e)`, or a successful response with its declared
`content-type` header value (`headers.get('content-type', '')`) and
what `Image.open` would yield on its bytes (`.error msg` when they do
not decode as an image). -/
inductive UrlOutcome
  | timeout
  | requestException (msg : String)
  | success (contentType : String) (decoded : Except String PILImage)

/-- The exceptions `validate_image_url`'s body can raise:
`requests.exceptions.Timeout` (a subclass of `RequestException`, but the
`except Timeout` clause comes first), any other `RequestException`
(from `requests.get` or `raise_for_status`), and any other `Exception`
(`Image.open` on undecodable bytes). -/
inductive UrlExn
  | timeoutExn
  | requestExn (msg : String)
  | genericExn (msg : String)
deriving DecidableEq, Repr

/-- The body of the `try:` block at app.py lines 118–128 as a fallible
computation: `requests.get` / `raise_for_status` may raise, the
content-type guard returns early, and `Image.open` may raise. -/
def urlTryBody (outcome : UrlOutcome) :
    Except UrlExn (Option PILImage × Option String) :=
  match outcome with
  | .timeout => .error .timeoutExn
  | .requestException msg => .error (.requestExn msg)
  | .success contentType decoded =>
    if ¬ pyStartsWith contentType "image/" then
      .ok (none, some "URL does not point to an image file")
    else
      match decoded with
      | .ok img => .ok (some img, none)
      | .error msg => .error (.genericExn msg)

/-- `validate_image_url` in full: `try` body plus the three `except`
clauses (`Timeout`, `RequestException`, `Exception`), as a fallible
Python computation — an uncaught exception would surface as `.error`. -/
def validate_image_url (outcome : UrlOutcome) :
    Except PyExn (Option PILImage × Option String) :=
  match urlTryBody outcome with
  | .ok r => .ok r
  | .error .timeoutExn => .ok (none, some "Request timed out. Please check the URL.")
  | .error (.requestExn msg) => .ok (none, some ("Error loading image: " ++ msg))
  | .error (.genericExn msg) => .ok (none, some ("Invalid image format: " ++ msg))

/-! ## Theorems -/

/-! ### Accuracy of the binary64 model

`findK` brackets the quotient between `2^52` and `2^53` at scale `k`, and
`roundAt` is within half a unit of the exact scaled quotient; together the
modeled float operations have relative error at most `2⁻⁵³`. -/

theorem goFind_reach (a b : ℕ) :
    ∀ fuel k : ℕ, 2 ^ 52 * b ≤ a * 2 ^ (k + fuel) →
      2 ^ 52 * b ≤ a * 2 ^ goFind a b fuel k := by
  intro fuel
  induction fuel with
  | zero => intro k h; simpa using h
  | succ n ih =>
    intro k h
    rw [goFind]
    split
    · assumption
    · exact ih (k + 1) (by rw [show k + 1 + n = k + (n + 1) from by omega]; exact h)

theorem goFind_min (a b : ℕ) :
    ∀ fuel k : ℕ, goFind a b fuel k = k ∨
      (0 < goFind a b fuel k ∧
        ¬ 2 ^ 52 * b ≤ a * 2 ^ (goFind a b fuel k - 1)) := by
  intro fuel
  induction fuel with
  | zero => intro k; left; rfl
  | succ n ih =>
    intro k
    rw [goFind]
    split
    · left; rfl
    · next hc =>
      rcases ih (k + 1) with h | h
      · right
        rw [h]
        exact ⟨by omega, by simpa using hc⟩
      · right; exact h

theorem findK_spec (a b : ℕ) (ha : 1 ≤ a) (hb : b ≤ 2 ^ 200) :
    2 ^ 52 * b ≤ a * 2 ^ findK a b := by
  refine goFind_reach a b 300 0 ?_
  calc 2 ^ 52 * b ≤ 2 ^ 52 * 2 ^ 200 := Nat.mul_le_mul_left _ hb
    _ = 1 * 2 ^ (52 + 200) := by rw [one_mul, ← pow_add]
    _ ≤ a * 2 ^ (0 + 300) := Nat.mul_le_mul ha (Nat.pow_le_pow_right (by norm_num) (by norm_num))

theorem findK_1024_le (m : ℕ) (hm : m ≤ 2 ^ 41) : findK 1024 m ≤ 83 := by
  rcases goFind_min 1024 m 300 0 with h | ⟨hpos, hmin⟩
  · simp only [findK, h]; omega
  · simp only [findK] at hpos hmin ⊢
    set j := goFind 1024 m 300 0 with hj
    by_contra hcon
    push_neg at hcon
    apply hmin
    calc 2 ^ 52 * m ≤ 2 ^ 52 * 2 ^ 41 := Nat.mul_le_mul_left _ hm
      _ = 1024 * 2 ^ 83 := by norm_num
      _ ≤ 1024 * 2 ^ (j - 1) :=
        Nat.mul_le_mul_left _ (Nat.pow_le_pow_right (by norm_num) (by omega))

/-- Helper: a string extended on the left by `"Connection error: "` never
equals the fixed timeout message (their first characters differ). -/
theorem connection_error_ne_timeout_msg (msg : String) :
    "Connection error: " ++ msg ≠ "Request timed out. The AI is busy, please try again." := by
  intro h
  obtain ⟨l⟩ := msg
  exact absurd (congrArg String.data h) (by simp [String.data])

theorem roundAt_scaled (a b k : ℕ) (hb : 0 < b) :
    2 * (a * 2 ^ k) ≤ 2 * b * roundAt a b k + b ∧
      2 * b * roundAt a b k ≤ 2 * (a * 2 ^ k) + b := by
  have hdm := Nat.div_add_mod (a * 2 ^ k) b
  have hml := Nat.mod_lt (a * 2 ^ k) hb
  simp only [roundAt]
  set n := a * 2 ^ k with hn
  set q := n / b with hq0
  set r := n % b with hr0
  split_ifs <;> constructor <;> nlinarith [hdm, hml]

/-- Relative-error bound for one modeled float operation: when `findK`'s
bracket holds, the rounded value `roundAt a b k / 2^k` is within relative
error `2⁻⁵³` of the exact quotient `a / b`. -/
theorem fl_le (a b k : ℕ) (hb : 0 < b) (hbr : 2 ^ 52 * b ≤ a * 2 ^ k) :
    (roundAt a b k : ℚ) / 2 ^ k ≤ (a : ℚ) / b * (1 + 1 / 2 ^ 53) ∧
      (a : ℚ) / b * (1 - 1 / 2 ^ 53) ≤ (roundAt a b k : ℚ) / 2 ^ k := by
  obtain ⟨hlo, hhi⟩ := roundAt_scaled a b k hb
  have hbq : (0 : ℚ) < b := by exact_mod_cast hb
  have h2k : (0 : ℚ) < (2 : ℚ) ^ k := by positivity
  have hhiq : 2 * (b : ℚ) * (roundAt a b k : ℚ) ≤ 2 * ((a : ℚ) * 2 ^ k) + b := by
    exact_mod_cast hhi
  have hloq : 2 * ((a : ℚ) * 2 ^ k) ≤ 2 * (b : ℚ) * (roundAt a b k : ℚ) + b := by
    exact_mod_cast hlo
  have hbrq : (2 : ℚ) ^ 52 * b ≤ (a : ℚ) * 2 ^ k := by exact_mod_cast hbr
  constructor
  · have hrw : (a : ℚ) / b * (1 + 1 / 2 ^ 53) = a * (2 ^ 53 + 1) / (b * 2 ^ 53) := by
      field_simp
    rw [hrw, div_le_div_iff h2k (by positivity)]
    nlinarith [hhiq, hbrq]
  · have hrw : (a : ℚ) / b * (1 - 1 / 2 ^ 53) = a * (2 ^ 53 - 1) / (b * 2 ^ 53) := by
      field_simp
    rw [hrw, div_le_div_iff (by positivity) h2k]
    nlinarith [hloq, hbrq]

/-- The two rounding stages of `resize_dim`, abstracted into opaque
values with their defining equations. -/
theorem resize_dim_eq (d m : ℕ) :
    ∃ k mf k2 mf2, findK 1024 m = k ∧ roundAt 1024 m k = mf ∧
      findK (d * mf) (2 ^ k) = k2 ∧ roundAt (d * mf) (2 ^ k) k2 = mf2 ∧
      resize_dim d m = mf2 / 2 ^ k2 :=
  ⟨_, _, _, _, rfl, rfl, rfl, rfl, rfl⟩

theorem resize_dim_approx (d m : ℕ) (hd : 1 ≤ d) (hdm : d ≤ m) (hm : 1024 < m)
    (hm41 : m ≤ 2 ^ 41) :
    (resize_dim d m : ℚ) ≤ (1024 * d : ℚ) / m * (1 + 3 / 2 ^ 53) ∧
      (1024 * d : ℚ) / m * (1 - 3 / 2 ^ 53) < (resize_dim d m : ℚ) + 1 := by
  obtain ⟨k, mf, k2, mf2, hkdef, hmfdef, hk2def, hmf2def, hrd⟩ := resize_dim_eq d m
  have hm0 : 0 < m := by omega
  have hmq : (0 : ℚ) < m := by exact_mod_cast hm0
  have hm200 : m ≤ 2 ^ 200 := le_trans hm41 (Nat.pow_le_pow_right (by norm_num) (by norm_num))
  have h1 : 2 ^ 52 * m ≤ 1024 * 2 ^ k := by
    rw [← hkdef]; exact findK_spec 1024 m (by norm_num) hm200
  have hfl1 := fl_le 1024 m k hm0 h1
  rw [hmfdef] at hfl1
  obtain ⟨hR_hi, hR_lo⟩ := hfl1
  have hR_hi' : (mf : ℚ) / (2 : ℚ) ^ k ≤ (1024 : ℚ) / m * (1 + 1 / 2 ^ 53) := by
    simpa using hR_hi
  have hR_lo' : (1024 : ℚ) / m * (1 - 1 / 2 ^ 53) ≤ (mf : ℚ) / (2 : ℚ) ^ k := by
    simpa using hR_lo
  have hRpos : (0 : ℚ) < (mf : ℚ) / (2 : ℚ) ^ k := by
    refine lt_of_lt_of_le ?_ hR_lo'
    have h0 : (0 : ℚ) < (1024 : ℚ) / m := by positivity
    nlinarith
  have hmf1 : 1 ≤ mf := by
    by_contra hcon
    have hz : mf = 0 := by omega
    rw [hz] at hRpos
    simp at hRpos
  have hk83 : k ≤ 83 := by rw [← hkdef]; exact findK_1024_le m hm41
  have hb2 : (2 : ℕ) ^ k ≤ 2 ^ 200 := Nat.pow_le_pow_right (by norm_num) (by omega)
  have ha2 : 1 ≤ d * mf := le_trans (by norm_num) (Nat.mul_le_mul hd hmf1)
  have h2 : 2 ^ 52 * 2 ^ k ≤ d * mf * 2 ^ k2 := by
    rw [← hk2def]; exact findK_spec (d * mf) (2 ^ k) ha2 hb2
  have hfl2 := fl_le (d * mf) (2 ^ k) k2 (Nat.pos_pow_of_pos k (by norm_num)) h2
  rw [hmf2def] at hfl2
  obtain ⟨hT_hi, hT_lo⟩ := hfl2
  have hq2 : ((d * mf : ℕ) : ℚ) / (((2 : ℕ) ^ k : ℕ) : ℚ) =
      (d : ℚ) * ((mf : ℚ) / (2 : ℚ) ^ k) := by
    push_cast; ring
  have hT_hi' : (mf2 : ℚ) / (2 : ℚ) ^ k2 ≤
      (d : ℚ) * ((mf : ℚ) / (2 : ℚ) ^ k) * (1 + 1 / 2 ^ 53) := by
    rw [← hq2]
    simpa using hT_hi
  have hT_lo' : (d : ℚ) * ((mf : ℚ) / (2 : ℚ) ^ k) * (1 - 1 / 2 ^ 53) ≤
      (mf2 : ℚ) / (2 : ℚ) ^ k2 := by
    rw [← hq2]
    simpa using hT_lo
  have hdq : (0 : ℚ) ≤ (d : ℚ) := Nat.cast_nonneg d
  have hvR : (1024 * d : ℚ) / m = (d : ℚ) * ((1024 : ℚ) / m) := by ring
  have claim1 : (mf2 : ℚ) / (2 : ℚ) ^ k2 ≤ (1024 * d : ℚ) / m * (1 + 3 / 2 ^ 53) := by
    have s1 : (mf2 : ℚ) / (2 : ℚ) ^ k2 ≤
        (d : ℚ) * ((1024 : ℚ) / m * (1 + 1 / 2 ^ 53)) * (1 + 1 / 2 ^ 53) := by
      refine le_trans hT_hi' ?_
      have h1u : (0 : ℚ) ≤ 1 + 1 / 2 ^ 53 := by norm_num
      exact mul_le_mul_of_nonneg_right (mul_le_mul_of_nonneg_left hR_hi' hdq) h1u
    refine le_trans s1 ?_
    rw [hvR]
    have hx : (0 : ℚ) ≤ (d : ℚ) * ((1024 : ℚ) / m) := by positivity
    nlinarith [hx]
  have claim2 : (1024 * d : ℚ) / m * (1 - 3 / 2 ^ 53) ≤ (mf2 : ℚ) / (2 : ℚ) ^ k2 := by
    have s1 : (d : ℚ) * ((1024 : ℚ) / m * (1 - 1 / 2 ^ 53)) * (1 - 1 / 2 ^ 53) ≤
        (d : ℚ) * ((mf : ℚ) / (2 : ℚ) ^ k) * (1 - 1 / 2 ^ 53) := by
      have h1u : (0 : ℚ) ≤ 1 - 1 / 2 ^ 53 := by norm_num
      exact mul_le_mul_of_nonneg_right (mul_le_mul_of_nonneg_left hR_lo' hdq) h1u
    refine le_trans ?_ (le_trans s1 hT_lo')
    rw [hvR]
    have hx : (0 : ℚ) ≤ (d : ℚ) * ((1024 : ℚ) / m) := by positivity
    nlinarith [hx]
  have h2k2 : (0 : ℚ) < (2 : ℚ) ^ k2 := by positivity
  have hfla : ((mf2 / 2 ^ k2 : ℕ) : ℚ) ≤ (mf2 : ℚ) / (2 : ℚ) ^ k2 := by
    calc ((mf2 / 2 ^ k2 : ℕ) : ℚ) ≤ (mf2 : ℚ) / (((2 : ℕ) ^ k2 : ℕ) : ℚ) := Nat.cast_div_le
      _ = (mf2 : ℚ) / (2 : ℚ) ^ k2 := by push_cast; ring
  have hflb : (mf2 : ℚ) / (2 : ℚ) ^ k2 < ((mf2 / 2 ^ k2 : ℕ) : ℚ) + 1 := by
    rw [div_lt_iff h2k2]
    have h3 := Nat.div_add_mod mf2 (2 ^ k2)
    have h4 := Nat.mod_lt mf2 (show 0 < 2 ^ k2 from Nat.pos_pow_of_pos k2 (by norm_num))
    have h3q : ((2 : ℕ) ^ k2 : ℚ) * ((mf2 / 2 ^ k2 : ℕ) : ℚ) + ((mf2 % 2 ^ k2 : ℕ) : ℚ)
        = (mf2 : ℚ) := by exact_mod_cast h3
    have h4q : ((mf2 % 2 ^ k2 : ℕ) : ℚ) < ((2 : ℕ) ^ k2 : ℚ) := by exact_mod_cast h4
    have hcast : ((2 : ℕ) ^ k2 : ℚ) = (2 : ℚ) ^ k2 := by push_cast; ring
    rw [hcast] at h3q h4q
    linarith [h3q, h4q]
  rw [hrd]
  exact ⟨le_trans hfla claim1, lt_of_le_of_lt claim2 hflb⟩

theorem resize_dim_le_1024 (d m : ℕ) (hd : 1 ≤ d) (hdm : d ≤ m) (hm : 1024 < m)
    (hm41 : m ≤ 2 ^ 41) : resize_dim d m ≤ 1024 := by
  obtain ⟨hA, _⟩ := resize_dim_approx d m hd hdm hm hm41
  have hmq : (0 : ℚ) < m := by exact_mod_cast Nat.lt_of_lt_of_le (by norm_num) hm.le
  have hv1024 : (1024 * d : ℚ) / m ≤ 1024 := by
    rw [div_le_iff hmq]
    have : (1024 * d : ℕ) ≤ 1024 * m := Nat.mul_le_mul_left _ hdm
    exact_mod_cast this
  have hlt : (resize_dim d m : ℚ) < 1025 := by nlinarith [hA, hv1024]
  exact_mod_cast Nat.lt_succ_iff.mp (by exact_mod_cast hlt)

theorem resize_dim_self_ge (m : ℕ) (hm : 1024 < m) (hm41 : m ≤ 2 ^ 41) :
    1023 ≤ resize_dim m m := by
  obtain ⟨_, hB⟩ := resize_dim_approx m m (by omega) le_rfl hm hm41
  have hmq : (0 : ℚ) < m := by exact_mod_cast Nat.lt_of_lt_of_le (by norm_num) hm.le
  have hveq : (1024 * m : ℚ) / m = 1024 := by field_simp
  rw [hveq] at hB
  have h1023 : (1023 : ℚ) < (resize_dim m m : ℚ) + 1 := by nlinarith [hB]
  have : (1023 : ℕ) < resize_dim m m + 1 := by exact_mod_cast h1023
  omega

theorem resize_dim_pos (d m : ℕ) (hd : 1 ≤ d) (hdm : d ≤ m) (hm : 1024 < m)
    (hm41 : m ≤ 2 ^ 41) (hgt : m < 1024 * d) : 1 ≤ resize_dim d m := by
  obtain ⟨_, hB⟩ := resize_dim_approx d m hd hdm hm hm41
  have hmq : (0 : ℚ) < m := by exact_mod_cast Nat.lt_of_lt_of_le (by norm_num) hm.le
  have hd41 : (d : ℚ) ≤ 2 ^ 41 := by exact_mod_cast le_trans hdm hm41
  by_contra hcon
  have hz : resize_dim d m = 0 := by omega
  rw [hz] at hB
  push_cast at hB
  have hB1 : (1024 * d : ℚ) / m * (1 - 3 / 2 ^ 53) < 1 := by linarith
  have h5 := mul_lt_mul_of_pos_right hB1 hmq
  have h6 : (1024 * d : ℚ) / m * (1 - 3 / 2 ^ 53) * m = (1024 * d : ℚ) * (1 - 3 / 2 ^ 53) := by
    field_simp; ring
  rw [h6, one_mul] at h5
  have hgtq : (m : ℚ) + 1 ≤ 1024 * d := by
    have : m + 1 ≤ 1024 * d := hgt
    exact_mod_cast this
  nlinarith [h5, hgtq, hd41]

theorem resize_dim_zero (d m : ℕ) (hd : 1 ≤ d) (hdm : d ≤ m) (hm : 1024 < m)
    (hm41 : m ≤ 2 ^ 41) (hlt : 1024 * d < m) : resize_dim d m = 0 := by
  obtain ⟨hA, _⟩ := resize_dim_approx d m hd hdm hm hm41
  have hmq : (0 : ℚ) < m := by exact_mod_cast Nat.lt_of_lt_of_le (by norm_num) hm.le
  have hd41 : (d : ℚ) ≤ 2 ^ 41 := by exact_mod_cast le_trans hdm hm41
  by_contra hne
  have h1 : 1 ≤ resize_dim d m := Nat.one_le_iff_ne_zero.mpr hne
  have h1q : (1 : ℚ) ≤ (resize_dim d m : ℚ) := by exact_mod_cast h1
  have hscale := mul_le_mul_of_nonneg_right hA hmq.le
  have h6 : (1024 * d : ℚ) / m * (1 + 3 / 2 ^ 53) * m = (1024 * d : ℚ) * (1 + 3 / 2 ^ 53) := by
    field_simp; ring
  rw [h6] at hscale
  have hmono : (1 : ℚ) * m ≤ (resize_dim d m : ℚ) * m :=
    mul_le_mul_of_nonneg_right h1q hmq.le
  have hltq : (1024 * d : ℚ) + 1 ≤ m := by
    have : 1024 * d + 1 ≤ m := hlt
    exact_mod_cast this
  nlinarith [hscale, hmono, hltq, hd41]

theorem resize_dim_pm1 (d m : ℕ) (hd : 1 ≤ d) (hdm : d ≤ m) (hm : 1024 < m)
    (hm41 : m ≤ 2 ^ 41) : |(resize_dim d m : ℚ) - (1024 * d : ℚ) / m| ≤ 1 := by
  obtain ⟨hA, hB⟩ := resize_dim_approx d m hd hdm hm hm41
  have hmq : (0 : ℚ) < m := by exact_mod_cast Nat.lt_of_lt_of_le (by norm_num) hm.le
  have hv1024 : (1024 * d : ℚ) / m ≤ 1024 := by
    rw [div_le_iff hmq]
    have : (1024 * d : ℕ) ≤ 1024 * m := Nat.mul_le_mul_left _ hdm
    exact_mod_cast this
  have hvnn : (0 : ℚ) ≤ (1024 * d : ℚ) / m := by positivity
  rw [abs_le]
  constructor
  · rcases le_or_lt (1024 * d) (m * (resize_dim d m + 1)) with hle | hgt
    · have hleq : (1024 * d : ℚ) ≤ m * (resize_dim d m + 1) := by exact_mod_cast hle
      have : (1024 * d : ℚ) / m ≤ (resize_dim d m : ℚ) + 1 := by
        rw [div_le_iff hmq]; push_cast at hleq ⊢; linarith
      linarith
    · exfalso
      have hd41 : (d : ℚ) ≤ 2 ^ 41 := by exact_mod_cast le_trans hdm hm41
      have hgtq : (m : ℚ) * (resize_dim d m + 1) + 1 ≤ 1024 * d := by
        have : m * (resize_dim d m + 1) + 1 ≤ 1024 * d := hgt
        exact_mod_cast this
      have h5 := mul_lt_mul_of_pos_right hB hmq
      have h6 : (1024 * d : ℚ) / m * (1 - 3 / 2 ^ 53) * m
          = (1024 * d : ℚ) * (1 - 3 / 2 ^ 53) := by field_simp; ring
      rw [h6] at h5
      nlinarith [h5, hgtq, hd41]
  · nlinarith [hA, hv1024]

/-- C1: a 200 response whose JSON body is an object with a nested `data`
object maps to a successful `SubmissionResult` whose `resultImgUrl` and
`maskImgUrl` are exactly the `data` object's fields — a missing nested
field becomes an absent optional, and `error` is `none`. -/
theorem claim_C1 (fields data : List (String × Json)) (text : String)
    (hdata : (fields.reverse).lookup "data" = some (Json.obj data)) :
    call_change_clothes_api_async (.response 200 text (.ok (.obj fields))) =
      .ok ⟨jfield data "resultImgUrl", jfield data "maskImgUrl", none, true⟩ := by
  simp only [call_change_clothes_api_async, tryBody, if_pos rfl, pyGetD, hdata,
    Option.getD, bind, Except.bind, pyGet, jfield]
  rfl

/-- Witness for C1 at the specification's own test vector: body
`{"data": {"resultImgUrl": "X"}}` (no `maskImgUrl`) yields
`resultImgUrl = "X"`, `maskImgUrl` absent, no error. -/
theorem claim_C1_witness :
    call_change_clothes_api_async (.response 200 ""
        (.ok (.obj [("data", Json.obj [("resultImgUrl", Json.str "X")])]))) =
      .ok ⟨some (Json.str "X"), none, none, true⟩ :=
  claim_C1 [("data", Json.obj [("resultImgUrl", Json.str "X")])]
    [("resultImgUrl", Json.str "X")] "" rfl

/-- C2 counterexample: a 401 response with body `"bad token"` yields the
error message `"API Error 401: bad token"`, not `"HTTP 401: bad token"`
as the claim states. -/
theorem claim_C2_counterexample :
    call_change_clothes_api_async (.response 401 "bad token" (.error "not json")) =
        .ok ⟨none, none, some "API Error 401: bad token", false⟩ ∧
      ("API Error 401: bad token" : String) ≠ "HTTP 401: bad token" :=
  ⟨rfl, by decide⟩

/-- C2 (amended): every non-200 response yields a `SubmissionResult`
carrying the error `"API Error <status>: <body text>"`, with the status
code and the raw response body surfaced verbatim. -/
theorem claim_C2 (status : ℕ) (text : String) (json : Except String Json)
    (hstatus : status ≠ 200) :
    call_change_clothes_api_async (.response status text json) =
      .ok ⟨none, none, some ("API Error " ++ toString status ++ ": " ++ text), false⟩ := by
  simp only [call_change_clothes_api_async, tryBody, if_neg hstatus]

/-- Witness for C2 at status 401, body `"bad token"`. -/
theorem claim_C2_witness :
    call_change_clothes_api_async (.response 401 "bad token" (.error "not json")) =
      .ok ⟨none, none, some "API Error 401: bad token", false⟩ :=
  claim_C2 401 "bad token" (.error "not json") (by decide)

/-- C3: the timeout produces the fixed message
`"Request timed out. The AI is busy, please try again."`, while every
other transport failure produces `"Connection error: <description>"`;
the two never coincide, so the caller can distinguish them. -/
theorem claim_C3 :
    call_change_clothes_api_async .timeout =
        .ok ⟨none, none, some "Request timed out. The AI is busy, please try again.", false⟩ ∧
      ∀ msg : String,
        call_change_clothes_api_async (.transportFailure msg) =
            .ok ⟨none, none, some ("Connection error: " ++ msg), false⟩ ∧
          (call_change_clothes_api_async (.transportFailure msg)).toOption.bind
              SubmissionResult.error ≠
            (call_change_clothes_api_async .timeout).toOption.bind SubmissionResult.error := by
  refine ⟨rfl, fun msg => ⟨rfl, fun h => ?_⟩⟩
  exact connection_error_ne_timeout_msg msg (Option.some.inj h)

/-- C4: an image whose larger dimension is at most 1024 is returned
unchanged by `resize_image`. -/
theorem claim_C4 (img : PILImage) (h : max img.width img.height ≤ 1024) :
    resizePIL img = img := by
  obtain ⟨w, hgt, m⟩ := img
  simp only [resizePIL, resize_image, if_neg (not_lt.2 h)]

/-- Witness for C4 at an 800 × 600 RGB image. -/
theorem claim_C4_witness :
    resizePIL ⟨800, 600, PILMode.RGB⟩ = ⟨800, 600, PILMode.RGB⟩ :=
  claim_C4 ⟨800, 600, PILMode.RGB⟩ (by decide)

/-- C6: when the declared content type does not start with `"image/"`,
`validate_image_url` returns the not-an-image error, and the result does
not depend on what decoding the fetched bytes would give — the bytes are
never decoded. -/
theorem claim_C6 (contentType : String) (dec₁ dec₂ : Except String PILImage)
    (h : pyStartsWith contentType "image/" = false) :
    validate_image_url (.success contentType dec₁) =
        .ok (none, some "URL does not point to an image file") ∧
      validate_image_url (.success contentType dec₁) =
        validate_image_url (.success contentType dec₂) := by
  constructor <;>
    simp only [validate_image_url, urlTryBody, h, Bool.false_eq_true,
      not_false_iff, if_pos]

/-- Witness for C6 at `content-type: text/html`, with decodings that
would succeed and fail respectively. -/
theorem claim_C6_witness :
    validate_image_url (.success "text/html" (.ok ⟨4, 4, PILMode.RGB⟩)) =
        .ok (none, some "URL does not point to an image file") ∧
      validate_image_url (.success "text/html" (.ok ⟨4, 4, PILMode.RGB⟩)) =
        validate_image_url (.success "text/html" (.error "cannot identify image file")) :=
  claim_C6 "text/html" (.ok ⟨4, 4, PILMode.RGB⟩)
    (.error "cannot identify image file") (by decide)

/-- C7: the `garmentDesc` field is present in the form exactly when the
description is non-empty after stripping surrounding whitespace, and then
holds the stripped value; the other three fields are always present. -/
theorem claim_C7 (mi gi cat desc : String) :
    (build_form_data mi gi cat desc).lookup "garmentDesc" =
        (if pyStrip desc = "" then none else some (pyStrip desc)) ∧
      (("garmentDesc", pyStrip desc) ∈ build_form_data mi gi cat desc ↔
        pyStrip desc ≠ "") ∧
      ("modelImg", mi) ∈ build_form_data mi gi cat desc ∧
      ("garmentImg", gi) ∈ build_form_data mi gi cat desc ∧
      ("category", cat) ∈ build_form_data mi gi cat desc := by
  have hempty : desc = "" → pyStrip desc = "" := fun h => by
    subst h; decide
  unfold build_form_data
  by_cases hs : pyStrip desc = ""
  · have : ¬(desc ≠ "" ∧ pyStrip desc ≠ "") := fun ⟨_, h2⟩ => h2 hs
    simp [this, hs, List.lookup]
  · have hd : desc ≠ "" := fun h => hs (hempty h)
    simp [hd, hs, List.lookup]

/-- C8 counterexample: the `LA` mode (grayscale with alpha) carries an
alpha channel, yet the preprocessing leaves an `LA` image unconverted —
only `RGBA` and `P` are converted to `RGB`. -/
theorem claim_C8_counterexample :
    PILMode.hasAlphaOrPalette .LA = true ∧
      prepareImage ⟨10, 10, PILMode.LA⟩ = ⟨10, 10, PILMode.LA⟩ := by
  exact ⟨rfl, by decide⟩

/-- C8 (amended): images whose mode is exactly `RGBA` or `P` are
converted to `RGB`, and this conversion happens before the resize; other
alpha-carrying modes (`LA`, `PA`) pass through unconverted. -/
theorem claim_C8 (img : PILImage) (h : img.mode = .RGBA ∨ img.mode = .P) :
    prepareImage img = resizePIL (convertRGB img) ∧
      (prepareImage img).mode = .RGB := by
  have hnorm : normalizeMode img = convertRGB img := by
    simp only [normalizeMode, if_pos h]
  exact ⟨by simp only [prepareImage, hnorm], by
    simp only [prepareImage, hnorm, resizePIL, convertRGB]⟩

/-- Witness for C8 at a 10 × 10 RGBA image. -/
theorem claim_C8_witness :
    prepareImage ⟨10, 10, PILMode.RGBA⟩ = resizePIL (convertRGB ⟨10, 10, PILMode.RGBA⟩) ∧
      (prepareImage ⟨10, 10, PILMode.RGBA⟩).mode = .RGB :=
  claim_C8 ⟨10, 10, PILMode.RGBA⟩ (Or.inl rfl)

/-- C9: neither fallible operation lets an exception escape: for every
environment outcome — timeout, HTTP error status, malformed body,
transport failure — both the API call and the URL validation return a
plain result value (`Except.ok`), the failure being carried inside it as
a message. -/
theorem claim_C9 :
    (∀ o : HttpOutcome, ∃ r, call_change_clothes_api_async o = .ok r) ∧
      ∀ o : UrlOutcome, ∃ r, validate_image_url o = .ok r := by
  constructor
  · intro o
    unfold call_change_clothes_api_async
    rcases htb : tryBody o with e | r
    · rcases e with _ | msg <;> exact ⟨_, rfl⟩
    · exact ⟨r, rfl⟩
  · intro o
    unfold validate_image_url
    rcases htb : urlTryBody o with e | r
    · rcases e with _ | msg | msg <;> exact ⟨_, rfl⟩
    · exact ⟨r, rfl⟩

/-- C5 counterexample: a 1122 × 1122 image resizes to 1023 × 1023 —
binary64 rounding makes `int(1122 * (1024 / 1122))` evaluate to 1023, so
the claimed `max(width, height) == 1024` fails. -/
theorem claim_C5_counterexample :
    resize_image 1122 1122 = (1023, 1023) ∧
      max (resize_image 1122 1122).1 (resize_image 1122 1122).2 ≠ 1024 := by
  have h : resize_image 1122 1122 = (1023, 1023) := by decide
  exact ⟨h, by rw [h]; decide⟩

/-- C5 (amended): for an image with positive dimensions,
`1024 < max(w, h) ≤ 2⁴¹` (any realistic size), `resize_image` scales by
the binary64 ratio `1024 / max(w, h)`: each output dimension is within
one pixel of the exact `dim * 1024 / max(w, h)`, and the larger output
dimension is 1023 or 1024 (float rounding can lose one pixel). -/
theorem claim_C5 (w h : ℕ) (hw : 1 ≤ w) (hh : 1 ≤ h) (hmax : 1024 < max w h)
    (hb : max w h ≤ 2 ^ 41) :
    (1023 ≤ max (resize_image w h).1 (resize_image w h).2 ∧
        max (resize_image w h).1 (resize_image w h).2 ≤ 1024) ∧
      |((resize_image w h).1 : ℚ) - (1024 * w : ℚ) / ((max w h : ℕ) : ℚ)| ≤ 1 ∧
      |((resize_image w h).2 : ℚ) - (1024 * h : ℚ) / ((max w h : ℕ) : ℚ)| ≤ 1 := by
  have hri : resize_image w h = (resize_dim w (max w h), resize_dim h (max w h)) := by
    rw [resize_image, if_pos hmax]
  rw [hri]
  dsimp only
  have hw' : w ≤ max w h := le_max_left w h
  have hh' : h ≤ max w h := le_max_right w h
  refine ⟨⟨?_, max_le (resize_dim_le_1024 w _ hw hw' hmax hb)
      (resize_dim_le_1024 h _ hh hh' hmax hb)⟩,
    resize_dim_pm1 w _ hw hw' hmax hb, resize_dim_pm1 h _ hh hh' hmax hb⟩
  rcases max_choice w h with hc | hc
  · rw [hc] at hmax hb ⊢
    exact le_trans (resize_dim_self_ge w hmax hb) (le_max_left _ _)
  · rw [hc] at hmax hb ⊢
    exact le_trans (resize_dim_self_ge h hmax hb) (le_max_right _ _)

/-- Witness for C5 at a 2048 × 1536 image (resized to 1024 × 768). -/
theorem claim_C5_witness :
    (1 ≤ 2048 ∧ 1 ≤ 1536 ∧ 1024 < max 2048 1536 ∧ max 2048 1536 ≤ 2 ^ 41) ∧
      ((1023 ≤ max (resize_image 2048 1536).1 (resize_image 2048 1536).2 ∧
          max (resize_image 2048 1536).1 (resize_image 2048 1536).2 ≤ 1024) ∧
        |((resize_image 2048 1536).1 : ℚ) - (1024 * 2048 : ℚ) / ((max 2048 1536 : ℕ) : ℚ)| ≤ 1 ∧
        |((resize_image 2048 1536).2 : ℚ) - (1024 * 1536 : ℚ) / ((max 2048 1536 : ℕ) : ℚ)| ≤ 1) :=
  ⟨⟨by norm_num, by norm_num, by norm_num, by norm_num⟩,
    by exact_mod_cast claim_C5 2048 1536 (by norm_num) (by norm_num) (by norm_num) (by norm_num)⟩

/-- C10 counterexample: a 1 × 2048 image resizes to 0 × 1024 — the width
collapses to zero, refuting the claim that positive dimensions always
stay positive. -/
theorem claim_C10_counterexample :
    resize_image 1 2048 = (0, 1024) ∧ ¬ 1 ≤ (resize_image 1 2048).1 := by
  have h : resize_image 1 2048 = (0, 1024) := by decide
  exact ⟨h, by rw [h]; decide⟩

/-- C10 (amended): for an image with positive dimensions of realistic
size (`max(w, h) ≤ 2⁴¹`): if the image is within bounds it is unchanged,
hence stays positive; if it is downscaled, a dimension `d` stays positive
whenever `1024 * d > max(w, h)`, but collapses to zero whenever
`1024 * d < max(w, h)` — so `resize_image` can output a zero dimension. -/
theorem claim_C10 (w h : ℕ) (hw : 1 ≤ w) (hh : 1 ≤ h) (hb : max w h ≤ 2 ^ 41) :
    (max w h ≤ 1024 → 1 ≤ (resize_image w h).1 ∧ 1 ≤ (resize_image w h).2) ∧
      (1024 < max w h →
        (max w h < 1024 * w → 1 ≤ (resize_image w h).1) ∧
        (1024 * w < max w h → (resize_image w h).1 = 0) ∧
        (max w h < 1024 * h → 1 ≤ (resize_image w h).2) ∧
        (1024 * h < max w h → (resize_image w h).2 = 0)) := by
  constructor
  · intro hle
    rw [resize_image, if_neg (not_lt.2 hle)]
    exact ⟨hw, hh⟩
  · intro hmax
    have hri : resize_image w h = (resize_dim w (max w h), resize_dim h (max w h)) := by
      rw [resize_image, if_pos hmax]
    rw [hri]
    dsimp only
    exact ⟨fun hgt => resize_dim_pos w _ hw (le_max_left _ _) hmax hb hgt,
      fun hlt => resize_dim_zero w _ hw (le_max_left _ _) hmax hb hlt,
      fun hgt => resize_dim_pos h _ hh (le_max_right _ _) hmax hb hgt,
      fun hlt => resize_dim_zero h _ hh (le_max_right _ _) hmax hb hlt⟩

/-- Witness for C10 at a 30 × 2000 image: both output dimensions stay
positive since `1024 * 30 > 2000`. -/
theorem claim_C10_witness :
    (1 ≤ 30 ∧ 1 ≤ 2000 ∧ max 30 2000 ≤ 2 ^ 41) ∧
      ((max 30 2000 ≤ 1024 →
          1 ≤ (resize_image 30 2000).1 ∧ 1 ≤ (resize_image 30 2000).2) ∧
        (1024 < max 30 2000 →
          (max 30 2000 < 1024 * 30 → 1 ≤ (resize_image 30 2000).1) ∧
          (1024 * 30 < max 30 2000 → (resize_image 30 2000).1 = 0) ∧
          (max 30 2000 < 1024 * 2000 → 1 ≤ (resize_image 30 2000).2) ∧
          (1024 * 2000 < max 30 2000 → (resize_image 30 2000).2 = 0))) :=
  ⟨⟨by norm_num, by norm_num, by norm_num⟩,
    claim_C10 30 2000 (by norm_num) (by norm_num) (by norm_num)⟩

end MAFLPILOT

